import Mathlib

/-!
Verification of the nesa streaming-LLM client (`demo/nesa/backend/llms.py`).

The Python module is shallowly embedded below.  Strings are `List Char`
(Python `str` is a sequence of Unicode code points); the asynchronous
generators are embedded as pure functions over an explicit trace of the
network input they would observe (HTTP chunks with their arrival times,
broker fetch results), producing the list of values they yield.  JSON
decoding (`msgspec.json.decode`) is an external library call and is passed
in as a function `List Char → Option InferenceResponse`: the handlers only
branch on whether it succeeds and on the fields of the decoded value.
-/

namespace Nesa

/-! ## Python string primitives used by `llms.py` -/

/-- Whitespace as removed by Python `str.strip()` / `bytes.strip()` on the
ASCII range: space, tab, newline, carriage return, vertical tab, form feed.
(`clean_string` only strips strings already filtered to printable ASCII, and
`bytes.strip` in the HTTP handler strips raw byte chunks, so the ASCII
whitespace set is the one that matters on every call site.) -/
def isPySpace (c : Char) : Bool :=
  c = ' ' || c = Char.ofNat 9 || c = Char.ofNat 10 || c = Char.ofNat 13 ||
    c = Char.ofNat 11 || c = Char.ofNat 12

/-- The character class kept by the regex substitution
`re.sub(r'[^ -~]', '', s)` (llms.py:33): printable ASCII, 0x20 .. 0x7E. -/
def isPrintableAscii (c : Char) : Bool :=
  decide (0x20 ≤ c.toNat) && decide (c.toNat ≤ 0x7E)

/-- Python `str.strip()`: remove leading and trailing whitespace. -/
def pyStrip (l : List Char) : List Char :=
  (l.dropWhile isPySpace).rdropWhile isPySpace

/-- HTML character-reference table used by `html.unescape` (llms.py:32),
abridged to representative entries of the HTML5 table (the full CPython
table has thousands of names; like the full table, this one contains
semicolon-terminated forms, longest match first, and a few historical
bare forms).  Every theorem below depends only on two facts that the
abridgement preserves exactly: a replacement is triggered only at a
literal ampersand, and "amp;" decodes to the ampersand character. -/
def entityTable : List (List Char × Char) :=
  [("amp;".toList, Char.ofNat 38), ("lt;".toList, Char.ofNat 60),
   ("gt;".toList, Char.ofNat 62), ("quot;".toList, Char.ofNat 34),
   ("apos;".toList, Char.ofNat 39), ("nbsp;".toList, Char.ofNat 0xA0),
   ("amp".toList, Char.ofNat 38), ("lt".toList, Char.ofNat 60),
   ("gt".toList, Char.ofNat 62), ("quot".toList, Char.ofNat 34)]

/-- Try each entity name against the text following an ampersand; on a hit
return the replacement character and the number of characters consumed. -/
def matchEntity (cs : List Char) : List (List Char × Char) → Option (Char × Nat)
  | [] => none
  | (name, repl) :: rest =>
    if name.isPrefixOf cs then some (repl, name.length) else matchEntity cs rest

/-- Fuel-indexed scanner for `html.unescape`: copy characters verbatim,
and at an ampersand substitute the longest matching character reference.
Each step consumes at least one input character, so fuel equal to the input
length (see `htmlUnescapeL`) never runs out; the fuel-exhausted branch
returns the remaining input unchanged. -/
def htmlUnescapeAux : Nat → List Char → List Char
  | 0, l => l
  | _ + 1, [] => []
  | fuel + 1, c :: rest =>
    if c = Char.ofNat 38 then
      match matchEntity rest entityTable with
      | some (r, n) => r :: htmlUnescapeAux fuel (rest.drop n)
      | none => c :: htmlUnescapeAux fuel rest
    else c :: htmlUnescapeAux fuel rest

/-- Model of `html.unescape` (llms.py:32). -/
def htmlUnescapeL (l : List Char) : List Char := htmlUnescapeAux l.length l

/-- Unicode NFKC normalization, `unicodedata.normalize('NFKC', s)`
(llms.py:34).  `clean_string` applies it only to the output of the
`[^ -~]` filter, i.e. to strings made of printable ASCII characters; every
printable-ASCII string is NFKC-normal (no ASCII character decomposes,
recomposes or compatibility-maps, and no combining character survives the
filter), so on the whole subdomain this function is ever applied to it is
the identity, which is how it is modelled. -/
def nfkcNormalize (l : List Char) : List Char := l

/-- `clean_string` (llms.py:28-37): unescape HTML entities, drop every
character outside printable ASCII, NFKC-normalize, strip whitespace. -/
def clean_stringL (message : List Char) : List Char :=
  let decoded_content := htmlUnescapeL message
  let printable_content := decoded_content.filter isPrintableAscii
  let normalized_content := nfkcNormalize printable_content
  pyStrip normalized_content

/-- `clean_string` on Lean `String`. -/
def clean_string (message : String) : String :=
  (clean_stringL message.toList).asString

/-! ## Wire data model (`nesa.backend.protocol`, as used by llms.py) -/

/-- Incremental content carried by one streamed choice. -/
structure Delta where
  content : String
deriving DecidableEq

/-- One element of `InferenceResponse.choices`. -/
structure Choice where
  delta : Delta
  finish_reason : Option String
deriving DecidableEq

/-- The decoded response envelope; the handlers read `choices[0]`. -/
structure InferenceResponse where
  choices : List Choice
deriving DecidableEq

/-- Python truthiness of `choices[0].finish_reason` (an `Optional[str]`):
truthy exactly when present and non-empty (llms.py:61, llms.py:119). -/
def finishTruthy (c : Choice) : Bool :=
  match c.finish_reason with
  | none => false
  | some s => decide (s ≠ "")

/-- Message roles; `Role.value` gives the wire strings of the
`nesa.backend.protocol.Role` enum (spec section 3: enum system/user/assistant). -/
inductive Role
  | system
  | user
  | assistant
deriving DecidableEq

def Role.value : Role → String
  | .system => "system"
  | .user => "user"
  | .assistant => "assistant"

/-- A role-tagged prompt message (the dicts built by
`generate_prompt_template`). -/
structure PromptMessage where
  role : String
  content : String
deriving DecidableEq

/-- `Message` of the request envelope (content first, as constructed at
llms.py:224-227). -/
structure Msg where
  content : String
  role : String
deriving DecidableEq

/-- `SessionID(ee=True)` wrapper. -/
structure SessionID where
  ee : Bool
deriving DecidableEq

/-- The `LLMInference` request envelope as populated at llms.py:219-230. -/
structure LLMInference where
  stream : Bool
  model : String
  correlation_id : String
  messages : List Msg
  session_id : SessionID
  model_params : List (String × String)
deriving DecidableEq

/-! ## Transport A: `stream_message_handler` (llms.py:40-76)

The handler iterates over the raw HTTP chunks of the response body.  A
chunk is modelled as its bytes (`List Char`) paired with the elapsed time
`now - start_time` observed during that loop iteration; `decode` is
`msgspec.json.decode(·, type=InferenceResponse)`, returning `none` when
decoding raises.  The function returns the list of values the generator
yields: `some content` for a delta, `none` for the `yield None` no-data
signal of the first-token timeout guard (llms.py:68-69). -/

/-- The first-token timeout guard at the bottom of the chunk loop
(llms.py:68-69): if no fragment has been decoded yet and the deadline has
passed, `yield None` — and then simply continue the loop. -/
def timeoutGuard (first : Bool) (t timeout : Nat) : List (Option String) :=
  if first = false ∧ timeout < t then [none] else []

/-- One chunk-loop iteration of `stream_message_handler`, threading the
`first_message_received` flag.  Order of operations mirrors llms.py:52-69:
skip chunks that are empty after `strip()`; on a decodable chunk set
`first_message_received` (llms.py:58-59) *before* `choices[0]` is read, so a
decoded response with an empty `choices` list (an `IndexError` swallowed by
the `except` at llms.py:65) still counts as a received message; `return`
on a truthy `finish_reason` *before* yielding that fragment's delta
(llms.py:61-64); finally run the first-token timeout guard. -/
def stream_message_handler (decode : List Char → Option InferenceResponse)
    (timeout : Nat) : Bool → List (List Char × Nat) → List (Option String)
  | _, [] => []
  | first, (chunk, t) :: rest =>
    if pyStrip chunk ≠ [] then
      match decode chunk with
      | some r =>
        match r.choices with
        | [] => stream_message_handler decode timeout true rest
        | ch :: _ =>
          if finishTruthy ch then []
          else some ch.delta.content :: stream_message_handler decode timeout true rest
      | none => timeoutGuard first t timeout ++ stream_message_handler decode timeout first rest
    else timeoutGuard first t timeout ++ stream_message_handler decode timeout first rest

/-! ## Transport B: `nats_message_handler` (llms.py:80-129)

The fetch loop is modelled over a trace of `sub.fetch(1)` outcomes: either
a batch of message payloads or a pull timeout (`TimeoutError`, llms.py:125,
which just continues the loop).  The embedding returns the pair
(yielded contents, acknowledged message payloads). -/

/-- One `sub.fetch` outcome. -/
inductive FetchResult
  | msgs (batch : List (List Char))
  | timeout

/-- The inner `for msg in msgs` loop (llms.py:116-124): decode each
message; a decode failure (or an empty `choices` list, an `IndexError`) is
caught at llms.py:123 and the message is skipped — in particular never
acknowledged, since `msg.ack()` (llms.py:122) runs only after a successful
decode and yield; a truthy `finish_reason` returns from the generator
immediately (llms.py:119-120), which also abandons the rest of the batch
and leaves the terminal message unacknowledged.  Returns (yields, acks,
halted). -/
def nats_process_batch (decode : List Char → Option InferenceResponse) :
    List (List Char) → List String × List (List Char) × Bool
  | [] => ([], [], false)
  | m :: ms =>
    match decode m with
    | none => nats_process_batch decode ms
    | some r =>
      match r.choices with
      | [] => nats_process_batch decode ms
      | ch :: _ =>
        if finishTruthy ch then ([], [], true)
        else
          let res := nats_process_batch decode ms
          (ch.delta.content :: res.1, m :: res.2.1, res.2.2)

/-- The `while True` fetch loop of `nats_message_handler`
(llms.py:113-126) over a trace of fetch outcomes.  Returns the pair
(yielded contents, acknowledged message payloads). -/
def nats_message_handler (decode : List Char → Option InferenceResponse) :
    List FetchResult → List String × List (List Char)
  | [] => ([], [])
  | .timeout :: rest => nats_message_handler decode rest
  | .msgs batch :: rest =>
    let b := nats_process_batch decode batch
    if b.2.2 then (b.1, b.2.1)
    else
      let r := nats_message_handler decode rest
      (b.1 ++ r.1, b.2.1 ++ r.2)

/-! ## Broker subjects and connection lifecycle (llms.py:80-129) -/

/-- Modelled from the spec: `sanitize_subject_token` lives in
`nesa.backend.utils`, which is not part of this repository snapshot; per
spec section 4.4 it escapes reserved subject-delimiter characters so they
cannot corrupt routing, and sanitize/desanitize are exact inverses.  The
hard-coded subject at llms.py:85 exhibits the escape of the delimiter "."
as the token "#a#", which is the encoding modelled here. -/
def sanitize_subject_token (s : String) : String :=
  (s.toList.foldr (fun c acc => if c = Char.ofNat 46 then
    Char.ofNat 35 :: Char.ofNat 97 :: Char.ofNat 35 :: acc else c :: acc) []).asString

/-- The publish subject built at llms.py:85.  The f-string interpolates only
`agent_uuid`; the model segment is the hard-coded literal
"meta-llama/llama-3#a#2-1b-instruct-he" — the `sanitized_model` computed
from `inf_request.model` at llms.py:83 is never used, so the parameter
`inf_model` does not occur in the result. -/
def publish_subject (agent_uuid : String) (inf_model : String) : String :=
  "inference.agent-by-nesa-agent-worker-" ++ agent_uuid ++
    ".private.base.request.meta-llama/llama-3#a#2-1b-instruct-he.cuda"

/-- The single consumer filter subject built at llms.py:86; again only
`agent_uuid` and `correlation_id` are interpolated, the model segment is
hard-coded. -/
def consume_subject (agent_uuid : String) (inf_model : String)
    (correlation_id : String) : String :=
  "inference.agent-by-nesa-agent-worker-" ++ agent_uuid ++
    ".private.base.result.meta-llama/llama-3#a#2-1b-instruct-he." ++ correlation_id

/-- Side-effecting steps of `nats_message_handler` in source order. -/
inductive NatsEvent
  | connect
  | publish
  | addConsumer
  | bind
  | fetchLoop
  | unsubscribe
  | close
deriving DecidableEq

/-- The points at which the broker transport can raise. -/
inductive NatsStep
  | connectS
  | publishS
  | addConsumerS
  | bindS
  | loopS
deriving DecidableEq

/-- Python exceptions that surface from the embedded code paths. -/
inductive PyExc
  | keyError (key : String)
  | transportError
  | nameError
deriving DecidableEq

/-- Control-flow model of the resource lifecycle of `nats_message_handler`
(llms.py:88-129), as a function of which step fails (an exception raised by
that awaited call, or — for `loopS` — an exception or caller cancellation
inside the fetch loop).  Returns the executed side-effecting steps in order
and the exception that escapes, if any.  The decisive structure from the
source: `nats.connect` (llms.py:88) and `js.publish` (llms.py:93) run
*before* the `try` that begins at llms.py:106, so a publish failure skips
the `finally` entirely; inside the `try`, if `js.add_consumer`
(llms.py:108) or `js.pull_subscribe_bind` (llms.py:109) raises, the local
`sub` was never bound, so the `finally` (llms.py:127-129) itself raises
`NameError` at `sub.unsubscribe()` and `nc.close()` on the next line is
never executed; only once `sub` is bound does every exit path — normal
return on a terminal fragment, exception, or cancellation at a yield —
run both `sub.unsubscribe()` and `nc.close()`. -/
def nats_handler_lifecycle (fail : NatsStep → Bool) :
    List NatsEvent × Option PyExc :=
  if fail .connectS then ([], some .transportError)
  else if fail .publishS then ([.connect], some .transportError)
  else if fail .addConsumerS then ([.connect, .publish], some .nameError)
  else if fail .bindS then ([.connect, .publish, .addConsumer], some .nameError)
  else if fail .loopS then
    ([.connect, .publish, .addConsumer, .bind, .unsubscribe, .close],
      some .transportError)
  else
    ([.connect, .publish, .addConsumer, .bind, .fetchLoop, .unsubscribe, .close],
      none)

/-! ## Prompt assembly (llms.py:132-154) -/

/-- Python list slice `xs[-lookback:]` as evaluated at llms.py:141.  For a
positive `lookback` this keeps the last `lookback` elements (all of them if
the list is shorter); for `lookback = 0` the start index `-0` is just `0`,
so the *entire* list is kept; for negative `lookback` the start index
`-lookback` is positive and that many elements are dropped from the front. -/
def pyTailSlice (lookback : Int) (xs : List α) : List α :=
  if 0 < lookback then xs.drop (xs.length - lookback.toNat)
  else xs.drop (-lookback).toNat

/-- `generate_prompt_template` (llms.py:132-154): sanitize every text
field, slice the history with `history[-lookback:]`, and build
`[system] + interleaved (user, assistant) pairs + [current user]`,
omitting the pairs when `use_memory` is false. -/
def generate_prompt_template (current_msg : String) (system_prompt : String)
    (history : List (String × String)) (lookback : Int) (use_memory : Bool) :
    List PromptMessage :=
  let current := [PromptMessage.mk (Role.value .user) (clean_string current_msg)]
  let system_instructions :=
    [PromptMessage.mk (Role.value .system) (clean_string system_prompt)]
  let hist := pyTailSlice lookback history
  let messages :=
    if use_memory then
      hist.flatMap (fun p =>
        [PromptMessage.mk (Role.value .user) (clean_string p.1),
         PromptMessage.mk (Role.value .assistant) (clean_string p.2)])
    else []
  system_instructions ++ messages ++ current

/-- The spec's own description of the kept history window (spec sections
4.1 and 8): "the last `lookback` history entries ... in original order".
Stated over a count, for comparison with the code's `pyTailSlice`. -/
def specLastPairs (lookback : Nat) (history : List (String × String)) :
    List (String × String) :=
  history.drop (history.length - lookback)

/-! ## Sync bridge and public entry point (llms.py:156-232) -/

/-- The external tokenizer interface consumed by the core (spec section 6):
`apply_chat_template` renders the assembled messages to the model-ready
form that llms.py:215-217 computes and llms.py:225 stringifies into the
single request message, and `decode` is the per-token detokenization
applied by the sync bridge at llms.py:171 to every yielded value
(including the `None` no-data signal). -/
structure Tokenizer where
  apply_chat_template : List PromptMessage → String
  decode : Option String → String

/-- The network input either transport could observe during one call: the
HTTP chunk trace and decoder for transport A, the broker fetch trace and
decoder for transport B. -/
structure TransportWorld where
  httpDecode : List Char → Option InferenceResponse
  httpChunks : List (List Char × Nat)
  natsDecode : List Char → Option InferenceResponse
  natsFetches : List FetchResult

/-- `process_stream_sync` (llms.py:156-177): drive a transport's async
generator to completion on a private event loop and re-expose it as a
plain list of detokenized values.  The wrapped generator is hard-wired to
`stream_message_handler(inf_request)` (llms.py:161) with its default
`timeout` of 60 (llms.py:40); the request itself only determines the POST
body, which the fragment-trace model abstracts, so the yielded sequence is
a function of the HTTP side of the world alone. -/
def process_stream_sync (inf_request : LLMInference) (tokenizer : Tokenizer)
    (w : TransportWorld) : List String :=
  (stream_message_handler w.httpDecode 60 false w.httpChunks).map tokenizer.decode

/-- The static logical-to-transport model mapping (llms.py:27). -/
def model_mappings : List (String × String) :=
  [("nesaorg_Llama-3.2-1B-Instruct-Encrypted", "meta-llama/Llama-3.2-1B-Instruct")]

/-- `DistributedLLM.perform_inference` (llms.py:198-232): assemble the
prompt (with the default `lookback=3`, `use_memory=True`), render it
through the tokenizer, resolve the model name through `model_mappings`
— the subscript `model_mappings[model_name]` at llms.py:221 raises
`KeyError` for an absent key, before any transport activity — build the
`LLMInference` envelope, and stream the result through
`process_stream_sync`.  `correlation_id` stands for the `uuid.uuid4()`
drawn at llms.py:222.  Returns the built request and the delivered tokens,
or the escaping exception. -/
def perform_inference (tokenizer : Tokenizer) (current_msg : String)
    (model_name : String) (history : List (String × String))
    (system_prompt : String) (correlation_id : String) (w : TransportWorld) :
    Except PyExc (LLMInference × List String) :=
  let prompt_template := generate_prompt_template current_msg system_prompt history 3 true
  let input_ids := tokenizer.apply_chat_template prompt_template
  match model_mappings.lookup model_name with
  | none => .error (.keyError model_name)
  | some mapped =>
    let inf_request : LLMInference :=
      ⟨true, mapped, correlation_id, [Msg.mk input_ids (Role.value .assistant)],
        SessionID.mk true, []⟩
    .ok (inf_request, process_stream_sync inf_request tokenizer w)

/-- A concrete decoder used to exercise the handlers on explicit traces:
frame "H" decodes to a mid-stream fragment with delta "Hel" and no finish
reason, frame "F" decodes to a terminal fragment with delta "lo" and
`finish_reason="stop"`, and every other frame fails to decode. -/
def decodeHel : List Char → Option InferenceResponse := fun m =>
  if m = "H".toList then some ⟨[⟨⟨"Hel"⟩, none⟩]⟩
  else if m = "F".toList then some ⟨[⟨⟨"lo"⟩, some "stop"⟩]⟩
  else none

/-! ## Helper lemmas about the sanitizer -/

lemma htmlUnescapeAux_eq_self (fuel : Nat) (l : List Char)
    (h : Char.ofNat 38 ∉ l) : htmlUnescapeAux fuel l = l := by
  induction fuel generalizing l with
  | zero => rfl
  | succ n ih =>
    cases l with
    | nil => rfl
    | cons c rest =>
      have hc : c ≠ Char.ofNat 38 := fun hcc => h (hcc ▸ List.mem_cons_self c rest)
      have hr : Char.ofNat 38 ∉ rest := fun hm => h (List.mem_cons_of_mem c hm)
      simp [htmlUnescapeAux, hc, ih rest hr]

lemma htmlUnescapeL_eq_self {l : List Char} (h : Char.ofNat 38 ∉ l) :
    htmlUnescapeL l = l := htmlUnescapeAux_eq_self _ l h

lemma mem_of_mem_pyStrip {a : Char} {l : List Char} (h : a ∈ pyStrip l) : a ∈ l := by
  have h1 := ((List.rdropWhile_prefix isPySpace (l.dropWhile isPySpace)).sublist.subset) h
  exact ((List.dropWhile_suffix isPySpace).sublist.subset) h1

lemma pyStrip_dropWhile_eq (l : List Char) :
    (pyStrip l).dropWhile isPySpace = pyStrip l := by
  cases hu : pyStrip l with
  | nil => rfl
  | cons a u =>
    suffices h : isPySpace a = false by simp [List.dropWhile_cons, h]
    obtain ⟨s, hs⟩ := List.rdropWhile_prefix isPySpace (l.dropWhile isPySpace)
    rw [show pyStrip l = (l.dropWhile isPySpace).rdropWhile isPySpace from rfl] at hu
    rw [hu] at hs
    have hne : l.dropWhile isPySpace ≠ [] := by rw [← hs]; simp
    have hhead := List.head_dropWhile_not isPySpace l hne
    have hsome : (l.dropWhile isPySpace).head? = some a := by rw [← hs]; rfl
    rw [List.head?_eq_head hne] at hsome
    have ha : (l.dropWhile isPySpace).head hne = a := Option.some_inj.mp hsome
    rwa [ha] at hhead

lemma pyStrip_idem (l : List Char) : pyStrip (pyStrip l) = pyStrip l := by
  show ((pyStrip l).dropWhile isPySpace).rdropWhile isPySpace = pyStrip l
  rw [pyStrip_dropWhile_eq l]
  show ((l.dropWhile isPySpace).rdropWhile isPySpace).rdropWhile isPySpace = pyStrip l
  rw [List.rdropWhile_idempotent]
  rfl

lemma clean_stringL_eq (l : List Char) :
    clean_stringL l = pyStrip ((htmlUnescapeL l).filter isPrintableAscii) := rfl

lemma clean_stringL_of_no_amp {l : List Char} (h : Char.ofNat 38 ∉ l) :
    clean_stringL l = pyStrip (l.filter isPrintableAscii) := by
  rw [clean_stringL_eq, htmlUnescapeL_eq_self h]

lemma no_amp_clean_stringL {l : List Char} (h : Char.ofNat 38 ∉ l) :
    Char.ofNat 38 ∉ clean_stringL l := by
  intro hmem
  rw [clean_stringL_of_no_amp h] at hmem
  exact h (List.mem_of_mem_filter (mem_of_mem_pyStrip hmem))

lemma mem_clean_stringL_printable {a : Char} {l : List Char} (h : a ∈ clean_stringL l) :
    isPrintableAscii a = true := by
  rw [clean_stringL_eq] at h
  exact List.of_mem_filter (mem_of_mem_pyStrip h)

lemma clean_stringL_idem_of_no_amp {l : List Char} (h : Char.ofNat 38 ∉ l) :
    clean_stringL (clean_stringL l) = clean_stringL l := by
  have h2 : Char.ofNat 38 ∉ clean_stringL l := no_amp_clean_stringL h
  rw [clean_stringL_of_no_amp h2]
  have hfa : (clean_stringL l).filter isPrintableAscii = clean_stringL l :=
    List.filter_eq_self.mpr (fun a ha => mem_clean_stringL_printable ha)
  rw [hfa, clean_stringL_eq]
  exact pyStrip_idem _

/-! ## Claim theorems -/

/-- C5 counterexample: `clean_string` is not idempotent.  On the input
"&amp;amp;" the first pass decodes the leading "&amp;" to an ampersand and
leaves "&amp;", and the second pass decodes that again to "&", so
`sanitize(sanitize(x)) ≠ sanitize(x)`. -/
theorem c5_cex_sanitize_not_idempotent :
    clean_string (clean_string "&amp;amp;") ≠ clean_string "&amp;amp;" := by decide

/-- C5 (amended): `clean_string` is idempotent on every text containing no
ampersand — HTML unescaping, the only non-idempotent stage, rewrites text
only at an ampersand, and the remaining stages (printable-ASCII filter,
NFKC on printable ASCII, strip) are individually and jointly idempotent. -/
theorem c5_sanitize_idempotent_amp_free (x : String)
    (h : Char.ofNat 38 ∉ x.toList) :
    clean_string (clean_string x) = clean_string x := by
  show (clean_stringL (clean_stringL x.toList).asString.toList).asString = _
  rw [show ((clean_stringL x.toList).asString.toList) = clean_stringL x.toList from rfl]
  rw [clean_stringL_idem_of_no_amp h]
  rfl

/-- C5 witness: the idempotence theorem applied at the concrete
ampersand-free input "abc". -/
theorem c5_witness : Char.ofNat 38 ∉ "abc".toList ∧
    clean_string (clean_string "abc") = clean_string "abc" :=
  ⟨by decide, c5_sanitize_idempotent_amp_free "abc" (by decide)⟩

/-- C9: every `clean_string` output consists of printable ASCII characters
(0x20 through 0x7E) only, and stripping it again changes nothing — i.e. it
carries no leading or trailing whitespace. -/
theorem c9_clean_string_printable_stripped (x : String) :
    (clean_string x).toList.all isPrintableAscii = true ∧
    pyStrip (clean_string x).toList = (clean_string x).toList := by
  have hT : (clean_string x).toList = clean_stringL x.toList := rfl
  constructor
  · rw [List.all_eq_true]
    intro a ha
    exact mem_clean_stringL_printable (hT ▸ ha)
  · rw [hT, clean_stringL_eq]
    exact pyStrip_idem _

/-- C1 counterexample: a terminal fragment's own delta is NOT emitted.  A
single frame decoding to delta "lo" with `finish_reason="stop"` produces an
empty yielded sequence on both transports — the handlers `return` before
the `yield` (llms.py:61-64 and llms.py:119-121), contradicting the claim
that the terminating fragment's non-empty delta is still emitted. -/
theorem c1_cex_terminal_delta_dropped :
    stream_message_handler decodeHel 60 false [("F".toList, 0)] = [] ∧
    some "lo" ∉ stream_message_handler decodeHel 60 false [("F".toList, 0)] ∧
    nats_message_handler decodeHel [FetchResult.msgs ["F".toList]] = ([], []) ∧
    "lo" ∉ (nats_message_handler decodeHel [FetchResult.msgs ["F".toList]]).1 := by
  decide

/-- C1 (amended): on both transports a decoded fragment with a truthy
(non-empty) `finish_reason` terminates the yielded sequence immediately and
its own delta content is NOT emitted; on the broker transport the rest of
the batch is abandoned as well and the terminal message is left
unacknowledged. -/
theorem c1_finish_terminates_without_delta
    (decode : List Char → Option InferenceResponse) (timeout t : Nat) (first : Bool)
    (chunk : List Char) (rest : List (List Char × Nat))
    (ms : List (List Char)) (fetches : List FetchResult)
    (r : InferenceResponse) (ch : Choice) (tl : List Choice)
    (hne : pyStrip chunk ≠ []) (hdec : decode chunk = some r)
    (hch : r.choices = ch :: tl) (hfin : finishTruthy ch = true) :
    stream_message_handler decode timeout first ((chunk, t) :: rest) = [] ∧
    nats_message_handler decode (FetchResult.msgs (chunk :: ms) :: fetches) = ([], []) := by
  constructor
  · simp [stream_message_handler, hne, hdec, hch, hfin]
  · simp [nats_message_handler, nats_process_batch, hdec, hch, hfin]

/-- C1 witness: the amended theorem applied to the concrete terminal frame
"F" (delta "lo", finish_reason "stop") on both transports. -/
theorem c1_witness :
    pyStrip "F".toList ≠ [] ∧
    (stream_message_handler decodeHel 60 false [("F".toList, 0)] = [] ∧
      nats_message_handler decodeHel [FetchResult.msgs ["F".toList]] = ([], [])) :=
  ⟨by decide,
   c1_finish_terminates_without_delta decodeHel 60 0 false "F".toList [] [] []
     ⟨[⟨⟨"lo"⟩, some "stop"⟩]⟩ ⟨⟨"lo"⟩, some "stop"⟩ []
     (by decide) (by decide) rfl (by decide)⟩

/-- C2 counterexample: with the 60-second first-token deadline and no
fragment yet, a trace of two late empty keep-alive chunks followed by a
valid fragment yields the no-data signal TWICE and then still yields the
fragment — the guard at llms.py:68-69 yields `None` without returning, so
the signal is neither emitted exactly once nor does it terminate the
stream. -/
theorem c2_cex_no_data_signal_repeats :
    stream_message_handler decodeHel 60 false
        [([' '], 100), ([' '], 200), ("H".toList, 300)] =
      [none, none, some "Hel"] ∧
    ([Option.none, none, some "Hel"] : List (Option String)) ≠ [Option.none] := by
  decide

/-- C2 (amended): the first-token guard yields the `None` no-data signal at
each chunk iteration past the deadline while no fragment has been decoded,
and does not terminate the stream; once a fragment has been received the
guard never fires again (the `None` signal is never emitted after
`first_message_received` is set). -/
theorem c2_no_data_signal_behaviour
    (decode : List Char → Option InferenceResponse) (timeout : Nat) :
    (∀ chunks, Option.none ∉ stream_message_handler decode timeout true chunks) ∧
    (∀ (c : List Char) (t : Nat) (rest : List (List Char × Nat)),
      pyStrip c = [] → timeout < t →
      stream_message_handler decode timeout false ((c, t) :: rest) =
        Option.none :: stream_message_handler decode timeout false rest) := by
  constructor
  · intro chunks
    induction chunks with
    | nil => simp [stream_message_handler]
    | cons hd rest ih =>
      obtain ⟨c, t⟩ := hd
      by_cases hc : pyStrip c ≠ []
      · simp only [stream_message_handler, if_pos hc]
        cases hdec : decode c with
        | none => simpa [timeoutGuard] using ih
        | some r =>
          rcases hch : r.choices with _ | ⟨ch, tl⟩
          · simpa [hch] using ih
          · by_cases hf : finishTruthy ch
            · simp [hch, hf]
            · simp [hch, hf, ih]
      · simp only [stream_message_handler, if_neg hc]
        simpa [timeoutGuard] using ih
  · intro c t rest hstrip ht
    simp only [stream_message_handler, if_neg (not_not_intro hstrip)]
    simp [timeoutGuard, ht]

/-- C2 witness: the amended theorem applied to a stream whose first
fragment already arrived (no `None` ever), and to a concrete empty chunk
past the deadline (a `None` that does not end the stream). -/
theorem c2_witness :
    (Option.none ∉ stream_message_handler decodeHel 60 true [("H".toList, 0)]) ∧
    (pyStrip [' '] = [] ∧ 60 < 100 ∧
      stream_message_handler decodeHel 60 false [([' '], 100)] =
        Option.none :: stream_message_handler decodeHel 60 false []) :=
  ⟨(c2_no_data_signal_behaviour decodeHel 60).1 [("H".toList, 0)],
   by decide,
   by decide,
   (c2_no_data_signal_behaviour decodeHel 60).2 [' '] 100 [] (by decide) (by decide)⟩

/-- C3 counterexample: the cleanup does not run on every exit path after
the connection is opened.  If `js.publish` raises, the trace ends at
`connect` with neither unsubscribe nor close; if `js.add_consumer` raises,
the `finally` itself raises `NameError` (the local `sub` was never bound)
and `nc.close()` is skipped; likewise if `js.pull_subscribe_bind` raises. -/
theorem c3_cex_early_failure_leaks_connection :
    ((nats_handler_lifecycle (fun s => decide (s = NatsStep.publishS))).1 =
        [NatsEvent.connect] ∧
      NatsEvent.unsubscribe ∉
        (nats_handler_lifecycle (fun s => decide (s = NatsStep.publishS))).1 ∧
      NatsEvent.close ∉
        (nats_handler_lifecycle (fun s => decide (s = NatsStep.publishS))).1) ∧
    ((nats_handler_lifecycle (fun s => decide (s = NatsStep.addConsumerS))).2 =
        some PyExc.nameError ∧
      NatsEvent.close ∉
        (nats_handler_lifecycle (fun s => decide (s = NatsStep.addConsumerS))).1) ∧
    (NatsEvent.close ∉
      (nats_handler_lifecycle (fun s => decide (s = NatsStep.bindS))).1) := by
  decide

/-- C3 (amended): the consumer is unsubscribed and the connection closed on
every exit path reached after the subscription is bound — normal
completion, and any exception or cancellation inside the fetch loop — but
not on earlier failures: a publish failure exits before the `try` and
leaves the connection open, and a failure in consumer creation or
subscription binding makes the `finally` raise `NameError` before
`nc.close()`. -/
theorem c3_cleanup_runs_once_bound (fail : NatsStep → Bool)
    (hc : fail .connectS = false) (hp : fail .publishS = false)
    (ha : fail .addConsumerS = false) (hb : fail .bindS = false) :
    NatsEvent.unsubscribe ∈ (nats_handler_lifecycle fail).1 ∧
    NatsEvent.close ∈ (nats_handler_lifecycle fail).1 := by
  simp only [nats_handler_lifecycle, hc, hp, ha, hb]
  cases hl : fail .loopS <;> simp

/-- C3 witness: the amended theorem applied to the failure-free run. -/
theorem c3_witness :
    NatsEvent.unsubscribe ∈ (nats_handler_lifecycle (fun _ => false)).1 ∧
    NatsEvent.close ∈ (nats_handler_lifecycle (fun _ => false)).1 :=
  c3_cleanup_runs_once_bound (fun _ => false) rfl rfl rfl rfl

/-- C4 counterexample: at `lookback = 0` the claim predicts no history
pairs (the last zero entries), i.e. just the system and current messages;
but Python's `history[-0:]` is `history[0:]`, the whole list, so the code
includes every pair. -/
theorem c4_cex_lookback_zero_keeps_all_history :
    generate_prompt_template "hello" "You are helpful" [("hi", "hi!")] 0 true =
      [⟨"system", "You are helpful"⟩, ⟨"user", "hi"⟩,
       ⟨"assistant", "hi!"⟩, ⟨"user", "hello"⟩] ∧
    generate_prompt_template "hello" "You are helpful" [("hi", "hi!")] 0 true ≠
      [⟨"system", "You are helpful"⟩, ⟨"user", "hello"⟩] := by
  decide

/-- C4 (amended): for every `lookback ≥ 1` the assembler returns exactly
[system message] ++ interleaved (user, assistant) pairs of the last
`lookback` history entries in original order ++ [current user message];
with `use_memory = false` all history pairs are omitted but system and
current messages remain; and the concrete scenario (lookback 1, history of
two pairs) yields exactly the 4 expected messages. -/
theorem c4_prompt_assembly (current_msg system_prompt : String)
    (history : List (String × String)) (lookback : Int) (hlb : 1 ≤ lookback) :
    (generate_prompt_template current_msg system_prompt history lookback true =
      PromptMessage.mk "system" (clean_string system_prompt) ::
        ((specLastPairs lookback.toNat history).flatMap (fun p =>
          [PromptMessage.mk "user" (clean_string p.1),
           PromptMessage.mk "assistant" (clean_string p.2)]) ++
         [PromptMessage.mk "user" (clean_string current_msg)])) ∧
    (generate_prompt_template current_msg system_prompt history lookback false =
      [PromptMessage.mk "system" (clean_string system_prompt),
       PromptMessage.mk "user" (clean_string current_msg)]) ∧
    (generate_prompt_template "hello" "You are helpful"
        [("hi", "hi!"), ("bye", "bye!")] 1 true =
      [PromptMessage.mk "system" "You are helpful", PromptMessage.mk "user" "bye",
       PromptMessage.mk "assistant" "bye!", PromptMessage.mk "user" "hello"]) := by
  refine ⟨?_, ?_, by decide⟩
  · simp [generate_prompt_template, pyTailSlice, specLastPairs, Role.value,
      if_pos (show (0 : Int) < lookback by omega)]
  · simp [generate_prompt_template, Role.value]

/-- C4 witness: the assembly theorem instantiated at the spec's end-to-end
scenario (lookback 1). -/
theorem c4_witness :
    (1 : Int) ≤ 1 ∧
    generate_prompt_template "hello" "You are helpful"
        [("hi", "hi!"), ("bye", "bye!")] 1 true =
      [PromptMessage.mk "system" "You are helpful", PromptMessage.mk "user" "bye",
       PromptMessage.mk "assistant" "bye!", PromptMessage.mk "user" "hello"] :=
  ⟨by decide,
   (c4_prompt_assembly "hello" "You are helpful" [("hi", "hi!"), ("bye", "bye!")] 1
     (by decide)).2.2⟩

/-- C6: for a model name absent from `model_mappings`, building the request
fails with the key-lookup error (`model_mappings[model_name]` raising
`KeyError`, the code's realization of the spec's `UnknownModelError`
configuration failure, distinct from any transport error), and no transport
input is consulted — the outcome is identical for every transport world. -/
theorem c6_unknown_model_fails_without_transport (tokenizer : Tokenizer)
    (current_msg model_name : String) (history : List (String × String))
    (system_prompt correlation_id : String) (w w' : TransportWorld)
    (h : model_mappings.lookup model_name = none) :
    perform_inference tokenizer current_msg model_name history system_prompt correlation_id w =
      Except.error (PyExc.keyError model_name) ∧
    perform_inference tokenizer current_msg model_name history system_prompt correlation_id w =
      perform_inference tokenizer current_msg model_name history system_prompt correlation_id w' := by
  constructor <;> simp [perform_inference, h]

/-- C6 witness: the theorem applied to the unmapped model name "gpt-4". -/
theorem c6_witness :
    model_mappings.lookup "gpt-4" = none ∧
    perform_inference ⟨fun _ => "", fun _ => ""⟩ "hi" "gpt-4" [] "sys" "corr"
        ⟨decodeHel, [("H".toList, 0)], decodeHel, []⟩ =
      Except.error (PyExc.keyError "gpt-4") :=
  ⟨by decide,
   (c6_unknown_model_fails_without_transport ⟨fun _ => "", fun _ => ""⟩ "hi" "gpt-4"
     [] "sys" "corr" ⟨decodeHel, [("H".toList, 0)], decodeHel, []⟩
     ⟨decodeHel, [], decodeHel, []⟩ (by decide)).1⟩

/-- C7: evaluation at the failing input.  Two requests with different model
names — including models whose sanitized subject tokens differ — get the
SAME publish subject and the same consumer filter model segment: the
subjects hard-code the literal "meta-llama/llama-3#a#2-1b-instruct-he" and
ignore the `sanitized_model` computed at llms.py:83. -/
theorem c7_subject_ignores_model :
    publish_subject "A" "meta-llama/Llama-3.2-1B-Instruct" =
      publish_subject "A" "some.other/model" ∧
    consume_subject "A" "meta-llama/Llama-3.2-1B-Instruct" "corr-1" =
      consume_subject "A" "some.other/model" "corr-1" ∧
    sanitize_subject_token "meta-llama/Llama-3.2-1B-Instruct" ≠
      sanitize_subject_token "some.other/model" ∧
    ("meta-llama/Llama-3.2-1B-Instruct" : String) ≠ "some.other/model" :=
  ⟨rfl, rfl, by decide, by decide⟩

/-- C10: the sync bridge is hard-wired to the HTTP handler: its output is
exactly the detokenized HTTP fragment stream, and both it and the whole
`perform_inference` pipeline are invariant under arbitrary changes to the
broker side of the transport world — the broker transport is unreachable
from the public entry point. -/
theorem c10_tokens_from_http_transport_only (inf_request : LLMInference)
    (tokenizer : Tokenizer) (w w' : TransportWorld)
    (hdec : w.httpDecode = w'.httpDecode) (hch : w.httpChunks = w'.httpChunks) :
    process_stream_sync inf_request tokenizer w =
      (stream_message_handler w.httpDecode 60 false w.httpChunks).map tokenizer.decode ∧
    process_stream_sync inf_request tokenizer w =
      process_stream_sync inf_request tokenizer w' ∧
    ∀ (current_msg model_name system_prompt correlation_id : String)
      (history : List (String × String)),
      perform_inference tokenizer current_msg model_name history system_prompt correlation_id w =
        perform_inference tokenizer current_msg model_name history system_prompt correlation_id w' := by
  refine ⟨rfl, ?_, ?_⟩
  · simp [process_stream_sync, hdec, hch]
  · intro current_msg model_name system_prompt correlation_id history
    cases hm : model_mappings.lookup model_name <;>
      simp [perform_inference, hm, process_stream_sync, hdec, hch]

/-- C10 witness: the theorem applied to two worlds agreeing on the HTTP
side but with completely different broker traces. -/
theorem c10_witness :
    process_stream_sync ⟨true, "m", "c", [], ⟨true⟩, []⟩
        ⟨fun _ => "", fun o => o.getD ""⟩
        ⟨decodeHel, [("H".toList, 0)], decodeHel, [FetchResult.msgs ["F".toList]]⟩ =
      process_stream_sync ⟨true, "m", "c", [], ⟨true⟩, []⟩
        ⟨fun _ => "", fun o => o.getD ""⟩
        ⟨decodeHel, [("H".toList, 0)], fun _ => none, []⟩ :=
  (c10_tokens_from_http_transport_only ⟨true, "m", "c", [], ⟨true⟩, []⟩
    ⟨fun _ => "", fun o => o.getD ""⟩
    ⟨decodeHel, [("H".toList, 0)], decodeHel, [FetchResult.msgs ["F".toList]]⟩
    ⟨decodeHel, [("H".toList, 0)], fun _ => none, []⟩ rfl rfl).2.1

/-- C8: a malformed frame mid-stream (after the first fragment) is skipped
on the HTTP transport, and an undecodable broker message is skipped and
never acknowledged: in both cases the handler's output over the whole trace
equals its output over the trace without the malformed frame, so subsequent
valid frames still yield their deltas. -/
theorem c8_malformed_frame_skipped
    (decode : List Char → Option InferenceResponse) (timeout t : Nat)
    (c m : List Char) (rest : List (List Char × Nat))
    (batch : List (List Char)) (fetches : List FetchResult)
    (hc : pyStrip c ≠ []) (hdc : decode c = none) (hdm : decode m = none) :
    stream_message_handler decode timeout true ((c, t) :: rest) =
      stream_message_handler decode timeout true rest ∧
    nats_message_handler decode (FetchResult.msgs (m :: batch) :: fetches) =
      nats_message_handler decode (FetchResult.msgs batch :: fetches) := by
  constructor
  · simp [stream_message_handler, hc, hdc, timeoutGuard]
  · simp [nats_message_handler, nats_process_batch, hdm]

/-- C8 witness: the theorem applied to the undecodable frame "X" placed
before valid frames on both transports. -/
theorem c8_witness :
    (pyStrip "X".toList ≠ [] ∧ decodeHel "X".toList = none) ∧
    (stream_message_handler decodeHel 60 true [("X".toList, 0), ("H".toList, 1)] =
       stream_message_handler decodeHel 60 true [("H".toList, 1)] ∧
     nats_message_handler decodeHel
         [FetchResult.msgs ["X".toList, "H".toList], FetchResult.msgs ["F".toList]] =
       nats_message_handler decodeHel
         [FetchResult.msgs ["H".toList], FetchResult.msgs ["F".toList]]) :=
  ⟨⟨by decide, by decide⟩,
   c8_malformed_frame_skipped decodeHel 60 0 "X".toList "X".toList
     [("H".toList, 1)] ["H".toList] [FetchResult.msgs ["F".toList]]
     (by decide) (by decide) (by decide)⟩

end Nesa
